import Mathlib

/-
Shallow embedding of the fee-calculation module of the Multi-Metal Token App
(source file: the fee module exporting calculateFees, calculateSIPFee,
calculateSwapFee, calculateRedemptionFees, calculateProfitLoss,
calculateDiversification, getMinimumAmounts, getMaximumAmounts).

Numbers are modelled as exact rationals.  The JavaScript rounding helper
Math.round rounds half toward positive infinity, i.e. Math.round x =
floor (x + 1/2); the pervasive pattern Math.round (x * 100) / 100 is round2
below.  The JavaScript value NaN, produced only by the division 0/0 in the
totalFeePercentage field, is modelled by Option: none stands for NaN.
-/

namespace MultiMetal

/-- JavaScript Math.round: round half toward positive infinity. -/
def jround (x : ℚ) : ℤ := ⌊x + 1/2⌋

/-- The source pattern Math.round (x * 100) / 100: round to 2 decimals. -/
def round2 (x : ℚ) : ℚ := (jround (x * 100) : ℚ) / 100

/-- The source pattern Math.round (x * 10000) / 10000: round to 4 decimals. -/
def round4 (x : ℚ) : ℚ := (jround (x * 10000) : ℚ) / 10000

/-- Trade direction for calculateFees. -/
inductive TradeType
  | buy
  | sell
deriving DecidableEq, Repr

/-- Result record of calculateFees.  The field totalFeePercentage is an
Option because the source divides by the principal amount, which yields the
JavaScript NaN (modelled as none) when the principal is zero. -/
structure FeeBreakdown where
  spreadFee : ℚ
  platformFee : ℚ
  gst : ℚ
  totalFee : ℚ
  totalFeePercentage : Option ℚ
deriving DecidableEq, Repr

/-- Embedding of calculateFees: 1 percent spread fee, 0.1 percent platform
fee (the source branches on the trade type but both branches give 0.001),
18 percent GST on the unrounded fee sum. -/
def calculateFees (type : TradeType) (amount marketPrice : ℚ) : FeeBreakdown :=
  let principalAmount := amount * marketPrice
  let spreadFee := principalAmount * (1/100)
  let platformFeeRate : ℚ := if type = TradeType.buy then 1/1000 else 1/1000
  let platformFee := principalAmount * platformFeeRate
  let totalFee := spreadFee + platformFee
  let gst := totalFee * (18/100)
  { spreadFee := round2 spreadFee
    platformFee := round2 platformFee
    gst := round2 gst
    totalFee := round2 (totalFee + gst)
    totalFeePercentage :=
      if principalAmount = 0 then none
      else some ((spreadFee + platformFee + gst) / principalAmount * 100) }

/-- Embedding of calculateSIPFee: a flat monthly fee of 50 prorated by
frequency, defaulting to the monthly fee for unknown frequency strings. -/
def calculateSIPFee (frequency : String) : ℚ :=
  let baseMonthlyFee : ℚ := 50
  if frequency = "daily" then baseMonthlyFee / 30
  else if frequency = "weekly" then baseMonthlyFee / 4
  else if frequency = "monthly" then baseMonthlyFee
  else baseMonthlyFee

/-- Result record of calculateSwapFee. -/
structure SwapFeeResult where
  percentage : ℚ
  fee : ℚ
  amount : ℚ
deriving DecidableEq, Repr

/-- Embedding of calculateSwapFee: tiered rate chosen by an if-chain from
the highest threshold down, fee rounded to 2 decimals. -/
def calculateSwapFee (amount : ℚ) : SwapFeeResult :=
  let percentage : ℚ :=
    if 1000000 ≤ amount then 1/1000
    else if 500000 ≤ amount then 1/500
    else if 100000 ≤ amount then 3/1000
    else if 50000 ≤ amount then 1/250
    else 1/200
  let fee := amount * percentage
  { percentage := percentage, fee := round2 fee, amount := amount }

/-- The swap tier table of the specification: pairs of minimum notional and
rate, listed from the highest threshold down. -/
def swapTiers : List (ℚ × ℚ) :=
  [(1000000, 1/1000), (500000, 1/500), (100000, 3/1000), (50000, 1/250), (0, 1/200)]

/-- Result record of calculateRedemptionFees. -/
structure RedemptionFees where
  deliveryFee : ℚ
  insuranceFee : ℚ
  processingFee : ℚ
  totalFees : ℚ
  netValue : ℚ
deriving DecidableEq, Repr

/-- The hardcoded marketPrices table of calculateRedemptionFees together
with the fallback to 1 for asset names outside the table (the source
expression is marketPrices[asset] || 1; no table entry is zero, so the
fallback fires exactly on unknown names). -/
def marketPriceFor (asset : String) : ℚ :=
  if asset = "gold" then 6000
  else if asset = "silver" then 75
  else if asset = "platinum" then 2800
  else 1

/-- Embedding of calculateRedemptionFees: value from the internal price
table, delivery fee by method, 0.5 percent insurance, 1 percent processing;
netValue subtracts the unrounded fee total from the value. -/
def calculateRedemptionFees (asset : String) (amount : ℚ) (deliveryMethod : String) :
    RedemptionFees :=
  let value := amount * marketPriceFor asset
  let deliveryFee : ℚ :=
    if deliveryMethod = "HOME" then
      (if amount ≤ 10 then 50 else if amount ≤ 50 then 100 else 200)
    else if deliveryMethod = "STORE" then 0
    else if deliveryMethod = "VAULT" then 25
    else 50
  let insuranceFee := value * (5/1000)
  let processingFee := value * (1/100)
  let totalFees := deliveryFee + insuranceFee + processingFee
  { deliveryFee := deliveryFee
    insuranceFee := round2 insuranceFee
    processingFee := round2 processingFee
    totalFees := round2 totalFees
    netValue := value - totalFees }

/-- Result record of calculateProfitLoss. -/
structure ProfitLossResult where
  investedAmount : ℚ
  currentValue : ℚ
  profit : ℚ
  profitPercentage : ℚ
  isProfit : Bool
deriving DecidableEq, Repr

/-- Embedding of calculateProfitLoss: rounded profit and percentage, with
the percentage guarded against division by a non-positive investment; the
isProfit flag is computed from the unrounded profit. -/
def calculateProfitLoss (investedAmount currentValue : ℚ) : ProfitLossResult :=
  let profit := currentValue - investedAmount
  let profitPercentage :=
    if 0 < investedAmount then profit / investedAmount * 100 else 0
  { investedAmount := investedAmount
    currentValue := currentValue
    profit := round2 profit
    profitPercentage := round2 profitPercentage
    isProfit := decide (0 ≤ profit) }

/-- An entry of the minimum or maximum order tables: an asset amount, its
unit, and the INR equivalent. -/
structure LimitEntry where
  amount : ℚ
  unit : String
  inr : ℚ
deriving DecidableEq, Repr

/-- The minimums table of getMinimumAmounts, as a partial lookup. -/
def minimumsTable (asset : String) : Option LimitEntry :=
  if asset = "gold" then some ⟨1/10, "gram", 600⟩
  else if asset = "silver" then some ⟨1, "gram", 75⟩
  else if asset = "platinum" then some ⟨1/10, "gram", 280⟩
  else if asset = "stablecoin" then some ⟨100, "BINR", 100⟩
  else none

/-- Embedding of getMinimumAmounts: the source expression is
minimums[asset] || minimums.gold, a fallback to the gold entry whenever the
asset name is not in the table. -/
def getMinimumAmounts (asset : String) : LimitEntry :=
  (minimumsTable asset).getD ⟨1/10, "gram", 600⟩

/-- The baseMaximums table of getMaximumAmounts, as a partial lookup; the
source reads baseMaximums[asset] with no fallback, so an unknown asset
leaves baseMax undefined and the subsequent property accesses throw a
TypeError at run time (modelled as none). -/
def baseMaximums (asset : String) : Option LimitEntry :=
  if asset = "gold" then some ⟨1000, "gram", 6000000⟩
  else if asset = "silver" then some ⟨50000, "gram", 3750000⟩
  else if asset = "platinum" then some ⟨1000, "gram", 2800000⟩
  else if asset = "stablecoin" then some ⟨10000000, "BINR", 10000000⟩
  else none

/-- The levelMultipliers table of getMaximumAmounts with its fallback
levelMultipliers[user.kycLevel] || 0.1 (no table value is zero, so the
fallback fires exactly on levels outside 1..4). -/
def levelMultiplier (kycLevel : ℤ) : ℚ :=
  if kycLevel = 1 then 1/10
  else if kycLevel = 2 then 1/2
  else if kycLevel = 3 then 1
  else if kycLevel = 4 then 2
  else 1/10

/-- Embedding of getMaximumAmounts: base maximum scaled by the KYC-level
multiplier; none models the TypeError on an unknown asset. -/
def getMaximumAmounts (asset : String) (kycLevel : ℤ) : Option LimitEntry :=
  (baseMaximums asset).map fun baseMax =>
    ⟨baseMax.amount * levelMultiplier kycLevel, baseMax.unit,
      baseMax.inr * levelMultiplier kycLevel⟩

/-- The four assets of the portfolio calculations. -/
inductive AssetKind
  | gold
  | silver
  | platinum
  | stablecoin
deriving DecidableEq, Repr, Fintype

/-- A per-asset holding of a portfolio: balance and current price. -/
structure Holding where
  balance : ℚ
  currentPrice : ℚ
deriving DecidableEq, Repr

/-- One allocation entry of the diversification result. -/
structure AllocationEntry where
  weight : ℚ
  value : ℚ
deriving DecidableEq, Repr

/-- Risk level classification of calculateDiversification. -/
inductive RiskLevel
  | low
  | medium
  | high
deriving DecidableEq, Repr

/-- Result record of calculateDiversification.  The source omits the hhi
field entirely on the zero-total-value early return, modelled by none; the
allocation object is modelled as an association list in asset order. -/
structure DiversificationResult where
  diversificationScore : ℤ
  allocation : List (AssetKind × AllocationEntry)
  riskLevel : RiskLevel
  hhi : Option ℚ
deriving DecidableEq, Repr

/-- The fixed asset list iterated by calculateDiversification. -/
def assetList : List AssetKind :=
  [AssetKind.gold, AssetKind.silver, AssetKind.platinum, AssetKind.stablecoin]

/-- The source expression portfolio[asset]?.balance * portfolio[asset]?.currentPrice || 0:
value of one holding, zero when the asset is absent. -/
def holdingValue (portfolio : AssetKind → Option Holding) (asset : AssetKind) : ℚ :=
  match portfolio asset with
  | some h => h.balance * h.currentPrice
  | none => 0

/-- Embedding of calculateDiversification: percentage weights over the
total value, Herfindahl index as the sum of squared fractional weights,
score round ((1 - hhi) * 100), and a risk level from the score. -/
def calculateDiversification (portfolio : AssetKind → Option Holding) :
    DiversificationResult :=
  let totalValue := (assetList.map fun asset => holdingValue portfolio asset).sum
  if totalValue = 0 then
    { diversificationScore := 0, allocation := [], riskLevel := RiskLevel.low,
      hhi := none }
  else
    let weights := assetList.map fun asset => holdingValue portfolio asset / totalValue * 100
    let allocation := assetList.map fun asset =>
      (asset,
        AllocationEntry.mk (round2 (holdingValue portfolio asset / totalValue * 100))
          (round2 (holdingValue portfolio asset)))
    let hhi := (weights.map fun w => (w / 100) ^ 2).sum
    let diversificationScore := jround ((1 - hhi) * 100)
    { diversificationScore := diversificationScore
      allocation := allocation
      riskLevel :=
        if 70 ≤ diversificationScore then RiskLevel.low
        else if 40 ≤ diversificationScore then RiskLevel.medium
        else RiskLevel.high
      hhi := some (round4 hhi) }

/-- Concrete single-asset portfolio used as a witness input: gold only,
balance 2 at price 3. -/
def singleGoldPortfolio : AssetKind → Option Holding := fun asset =>
  if asset = AssetKind.gold then some ⟨2, 3⟩ else none

/-- Concrete equal-value portfolio used as a witness input: every asset
held with balance 2 at price 3. -/
def equalPortfolio : AssetKind → Option Holding := fun _ => some ⟨2, 3⟩

/-- C1 counterexample: at quantity 1 and price 2.5 the returned breakdown
violates the claimed invariant.  The rounded spread fee is 0.03 and the
rounded platform fee is 0.00, so round2 of their sum times 0.18 is 0.01,
but the code computes the GST from the unrounded fees, 0.0275 * 0.18 =
0.00495, which rounds to 0. -/
theorem C1_counterexample :
    ¬ ((calculateFees TradeType.buy 1 (5/2)).gst
          = round2 (((calculateFees TradeType.buy 1 (5/2)).spreadFee
              + (calculateFees TradeType.buy 1 (5/2)).platformFee) * (18/100))
        ∧ (calculateFees TradeType.buy 1 (5/2)).totalFee
          = round2 ((calculateFees TradeType.buy 1 (5/2)).spreadFee
              + (calculateFees TradeType.buy 1 (5/2)).platformFee
              + (calculateFees TradeType.buy 1 (5/2)).gst)) := by
  norm_num [calculateFees, round2, jround]

/-- C1 amended: for every trade fee calculation with quantity > 0 and
midPrice > 0, the returned gst equals round2 of 0.18 times the sum of the
UNROUNDED spread and platform fees, and the returned totalFee equals
round2 of the unrounded spread fee plus the unrounded platform fee plus
the unrounded gst; the rounded fields returned in the breakdown play no
part in these computations. -/
theorem C1_gst_total_from_raw (t : TradeType) (q p : ℚ) (_hq : 0 < q) (_hp : 0 < p) :
    (calculateFees t q p).gst
      = round2 ((q * p * (1/100) + q * p * (1/1000)) * (18/100))
    ∧ (calculateFees t q p).totalFee
      = round2 (q * p * (1/100) + q * p * (1/1000)
          + (q * p * (1/100) + q * p * (1/1000)) * (18/100)) := by
  cases t <;> simp [calculateFees]

/-- C1 witness: the amended statement instantiated at a buy of 2 units at
price 6000. -/
theorem C1_witness :
    (0:ℚ) < 2 ∧ (0:ℚ) < 6000
    ∧ ((calculateFees TradeType.buy 2 6000).gst
        = round2 ((2 * 6000 * (1/100) + 2 * 6000 * (1/1000)) * (18/100))
      ∧ (calculateFees TradeType.buy 2 6000).totalFee
        = round2 (2 * 6000 * (1/100) + 2 * 6000 * (1/1000)
            + (2 * 6000 * (1/100) + 2 * 6000 * (1/1000)) * (18/100))) :=
  ⟨by norm_num, by norm_num,
    C1_gst_total_from_raw TradeType.buy 2 6000 (by norm_num) (by norm_num)⟩

/-- C2 counterexample: at quantity 0 the trade fee calculation does not
fail; it returns a full FeeBreakdown with every fee equal to zero (and the
NaN percentage modelled as none), contradicting the claimed
InvalidTradeParameters failure. -/
theorem C2_counterexample :
    calculateFees TradeType.buy 0 5 = ⟨0, 0, 0, 0, none⟩ := by
  norm_num [calculateFees, round2, jround]

/-- C2 amended: the source performs no input validation.  For quantity <= 0
or midPrice <= 0 it still returns a FeeBreakdown computed by the same pure
formulas, with totalFee = round2 of 0.01298 times the principal, and with
totalFeePercentage the NaN value (none) exactly when the principal is
zero. -/
theorem C2_no_validation (t : TradeType) (q p : ℚ) (_h : q ≤ 0 ∨ p ≤ 0) :
    (calculateFees t q p).totalFee = round2 (q * p * (1298/100000))
    ∧ ((calculateFees t q p).totalFeePercentage = none ↔ q * p = 0) := by
  constructor
  · cases t <;> simp only [calculateFees] <;> norm_num <;> congr 1 <;> ring
  · cases t <;> simp only [calculateFees] <;> norm_num <;> tauto

/-- C2 witness: the amended statement instantiated at quantity 0, price 5. -/
theorem C2_witness :
    ((0:ℚ) ≤ 0 ∨ (5:ℚ) ≤ 0)
    ∧ ((calculateFees TradeType.buy 0 5).totalFee = round2 (0 * 5 * (1298/100000))
      ∧ ((calculateFees TradeType.buy 0 5).totalFeePercentage = none ↔ (0:ℚ) * 5 = 0)) :=
  ⟨Or.inl le_rfl, C2_no_validation TradeType.buy 0 5 (Or.inl le_rfl)⟩

/-- C3: for every notionalValue >= 0, the swap fee rate is the rate of the
tier with the largest minNotional that is at most the notional (boundaries
inclusive of the higher tier), the fee is round2 of notional times rate,
and at the boundaries the rate of 1000000 is 0.001 while the rate of
999999.99 is 0.002. -/
theorem C3_swap_tier_selection :
    (∀ v : ℚ, 0 ≤ v → ∃ tier, tier ∈ swapTiers ∧ tier.1 ≤ v
        ∧ (∀ other, other ∈ swapTiers → other.1 ≤ v → other.1 ≤ tier.1)
        ∧ (calculateSwapFee v).percentage = tier.2
        ∧ (calculateSwapFee v).fee = round2 (v * tier.2))
    ∧ (calculateSwapFee 1000000).percentage = 1/1000
    ∧ (calculateSwapFee (99999999/100)).percentage = 1/500 := by
  refine ⟨?_, ?_, ?_⟩
  · intro v hv
    by_cases h1 : (1000000:ℚ) ≤ v
    · refine ⟨(1000000, 1/1000), by simp [swapTiers], h1, ?_, ?_, ?_⟩
      · intro other ho hle
        simp only [swapTiers] at ho
        fin_cases ho <;> norm_num
      · simp only [calculateSwapFee]
        rw [if_pos h1]
      · simp only [calculateSwapFee]
        rw [if_pos h1]
    · by_cases h2 : (500000:ℚ) ≤ v
      · refine ⟨(500000, 1/500), by simp [swapTiers], h2, ?_, ?_, ?_⟩
        · intro other ho hle
          simp only [swapTiers] at ho
          fin_cases ho <;> norm_num
          exact absurd hle h1
        · simp only [calculateSwapFee]
          rw [if_neg h1, if_pos h2]
        · simp only [calculateSwapFee]
          rw [if_neg h1, if_pos h2]
      · by_cases h3 : (100000:ℚ) ≤ v
        · refine ⟨(100000, 3/1000), by simp [swapTiers], h3, ?_, ?_, ?_⟩
          · intro other ho hle
            simp only [swapTiers] at ho
            fin_cases ho <;> norm_num
            · exact absurd hle h1
            · exact absurd hle h2
          · simp only [calculateSwapFee]
            rw [if_neg h1, if_neg h2, if_pos h3]
          · simp only [calculateSwapFee]
            rw [if_neg h1, if_neg h2, if_pos h3]
        · by_cases h4 : (50000:ℚ) ≤ v
          · refine ⟨(50000, 1/250), by simp [swapTiers], h4, ?_, ?_, ?_⟩
            · intro other ho hle
              simp only [swapTiers] at ho
              fin_cases ho <;> norm_num
              · exact absurd hle h1
              · exact absurd hle h2
              · exact absurd hle h3
            · simp only [calculateSwapFee]
              rw [if_neg h1, if_neg h2, if_neg h3, if_pos h4]
            · simp only [calculateSwapFee]
              rw [if_neg h1, if_neg h2, if_neg h3, if_pos h4]
          · refine ⟨(0, 1/200), by simp [swapTiers], hv, ?_, ?_, ?_⟩
            · intro other ho hle
              simp only [swapTiers] at ho
              fin_cases ho <;> norm_num
              · exact absurd hle h1
              · exact absurd hle h2
              · exact absurd hle h3
              · exact absurd hle h4
            · simp only [calculateSwapFee]
              rw [if_neg h1, if_neg h2, if_neg h3, if_neg h4]
            · simp only [calculateSwapFee]
              rw [if_neg h1, if_neg h2, if_neg h3, if_neg h4]
  · norm_num [calculateSwapFee]
  · norm_num [calculateSwapFee]

/-- C3 witness: the tier-selection statement instantiated at notional
750000, where the selected tier is the 500000 one. -/
theorem C3_witness :
    (0:ℚ) ≤ 750000
    ∧ ∃ tier, tier ∈ swapTiers ∧ tier.1 ≤ (750000:ℚ)
        ∧ (∀ other, other ∈ swapTiers → other.1 ≤ (750000:ℚ) → other.1 ≤ tier.1)
        ∧ (calculateSwapFee 750000).percentage = tier.2
        ∧ (calculateSwapFee 750000).fee = round2 (750000 * tier.2) :=
  ⟨by norm_num, C3_swap_tier_selection.1 750000 (by norm_num)⟩

/-- C4: redemption of 60 grams of silver via HOME delivery yields value
4500 at the hardcoded price of 75 per gram, delivery fee 200, insurance
fee 22.5, processing fee 45, total fees 267.5, net value 4232.5; and for
every asset and quantity the HOME delivery fee is 50 up to 10 grams, 100
up to 50 grams, and 200 above that. -/
theorem C4_redemption_example_and_home_fee :
    calculateRedemptionFees "silver" 60 "HOME" = ⟨200, 45/2, 45, 535/2, 8465/2⟩
    ∧ ∀ (asset : String) (g : ℚ),
        (calculateRedemptionFees asset g "HOME").deliveryFee
          = if g ≤ 10 then 50 else if g ≤ 50 then 100 else 200 := by
  constructor
  · norm_num [calculateRedemptionFees, marketPriceFor, round2, jround,
      show ("silver":String) ≠ "gold" by decide]
  · intro asset g
    simp [calculateRedemptionFees]

/-- C5: a portfolio whose entire value sits in one asset has Herfindahl
index 1 and diversification score 0; a portfolio in which all four assets
carry the same nonzero value has Herfindahl index 0.25, score 75, and risk
level Low. -/
theorem C5_diversification :
    (∀ (p : AssetKind → Option Holding) (a : AssetKind),
        (∀ b : AssetKind, b ≠ a → holdingValue p b = 0) →
        holdingValue p a ≠ 0 →
        (calculateDiversification p).hhi = some 1
        ∧ (calculateDiversification p).diversificationScore = 0)
    ∧ (∀ (p : AssetKind → Option Holding) (v : ℚ), v ≠ 0 →
        (∀ a : AssetKind, holdingValue p a = v) →
        (calculateDiversification p).hhi = some (1/4)
        ∧ (calculateDiversification p).diversificationScore = 75
        ∧ (calculateDiversification p).riskLevel = RiskLevel.low) := by
  constructor
  · intro p a h1 h2
    cases a
    case gold =>
      have hs : holdingValue p AssetKind.silver = 0 := h1 _ (by decide)
      have hpl : holdingValue p AssetKind.platinum = 0 := h1 _ (by decide)
      have hst : holdingValue p AssetKind.stablecoin = 0 := h1 _ (by decide)
      simp only [calculateDiversification, assetList, List.map_cons, List.map_nil,
        List.sum_cons, List.sum_nil, hs, hpl, hst, add_zero, zero_add]
      rw [if_neg h2]
      simp [div_self h2]
      norm_num [round4, jround]
    case silver =>
      have hg : holdingValue p AssetKind.gold = 0 := h1 _ (by decide)
      have hpl : holdingValue p AssetKind.platinum = 0 := h1 _ (by decide)
      have hst : holdingValue p AssetKind.stablecoin = 0 := h1 _ (by decide)
      simp only [calculateDiversification, assetList, List.map_cons, List.map_nil,
        List.sum_cons, List.sum_nil, hg, hpl, hst, add_zero, zero_add]
      rw [if_neg h2]
      simp [div_self h2]
      norm_num [round4, jround]
    case platinum =>
      have hg : holdingValue p AssetKind.gold = 0 := h1 _ (by decide)
      have hs : holdingValue p AssetKind.silver = 0 := h1 _ (by decide)
      have hst : holdingValue p AssetKind.stablecoin = 0 := h1 _ (by decide)
      simp only [calculateDiversification, assetList, List.map_cons, List.map_nil,
        List.sum_cons, List.sum_nil, hg, hs, hst, add_zero, zero_add]
      rw [if_neg h2]
      simp [div_self h2]
      norm_num [round4, jround]
    case stablecoin =>
      have hg : holdingValue p AssetKind.gold = 0 := h1 _ (by decide)
      have hs : holdingValue p AssetKind.silver = 0 := h1 _ (by decide)
      have hpl : holdingValue p AssetKind.platinum = 0 := h1 _ (by decide)
      simp only [calculateDiversification, assetList, List.map_cons, List.map_nil,
        List.sum_cons, List.sum_nil, hg, hs, hpl, add_zero, zero_add]
      rw [if_neg h2]
      simp [div_self h2]
      norm_num [round4, jround]
  · intro p v hv h
    have hc : ¬ (v + (v + (v + (v + 0))) = 0) := by
      intro hc
      apply hv
      linarith
    have hq : v / (v + (v + (v + v))) = 1/4 := by
      rw [show v + (v + (v + v)) = v * 4 by ring, ← div_div, div_self hv]
    simp only [calculateDiversification, assetList, List.map_cons, List.map_nil,
      List.sum_cons, List.sum_nil, h]
    rw [if_neg hc]
    simp only [add_zero, hq]
    norm_num [round4, jround]

/-- C5 witness: the single-asset statement instantiated at a gold-only
portfolio and the equal-value statement at a portfolio holding every asset
at value 6. -/
theorem C5_witness :
    ((∀ b : AssetKind, b ≠ AssetKind.gold → holdingValue singleGoldPortfolio b = 0)
      ∧ holdingValue singleGoldPortfolio AssetKind.gold ≠ 0
      ∧ ((calculateDiversification singleGoldPortfolio).hhi = some 1
        ∧ (calculateDiversification singleGoldPortfolio).diversificationScore = 0))
    ∧ ((6:ℚ) ≠ 0 ∧ (∀ a : AssetKind, holdingValue equalPortfolio a = 6)
      ∧ ((calculateDiversification equalPortfolio).hhi = some (1/4)
        ∧ (calculateDiversification equalPortfolio).diversificationScore = 75
        ∧ (calculateDiversification equalPortfolio).riskLevel = RiskLevel.low)) :=
  ⟨⟨by intro b hb; cases b; exacts [absurd rfl hb, by simp [holdingValue, singleGoldPortfolio],
        by simp [holdingValue, singleGoldPortfolio], by simp [holdingValue, singleGoldPortfolio]],
      by simp [holdingValue, singleGoldPortfolio],
      C5_diversification.1 singleGoldPortfolio AssetKind.gold
        (by intro b hb; cases b; exacts [absurd rfl hb,
          by simp [holdingValue, singleGoldPortfolio],
          by simp [holdingValue, singleGoldPortfolio],
          by simp [holdingValue, singleGoldPortfolio]])
        (by simp [holdingValue, singleGoldPortfolio])⟩,
    ⟨by norm_num, by intro a; cases a <;> norm_num [holdingValue, equalPortfolio],
      C5_diversification.2 equalPortfolio 6 (by norm_num)
        (by intro a; cases a <;> norm_num [holdingValue, equalPortfolio])⟩⟩

/-- C6 counterexample: for the unknown asset name copper the minimum-order
lookup does not fail; it returns the gold minimum entry of 0.1 gram worth
600 INR, contradicting the claimed UnknownAsset failure. -/
theorem C6_counterexample :
    getMinimumAmounts "copper" = ⟨1/10, "gram", 600⟩ := by
  simp [getMinimumAmounts, minimumsTable]

/-- C6 amended: for every asset name outside the enumeration, the
minimum-order lookup silently falls back to the gold entry, while the
maximum-order lookup finds no base entry and aborts with a runtime type
error (modelled as none) rather than an explicit UnknownAsset failure. -/
theorem C6_fallbacks (asset : String) (kycLevel : ℤ)
    (h1 : asset ≠ "gold") (h2 : asset ≠ "silver") (h3 : asset ≠ "platinum")
    (h4 : asset ≠ "stablecoin") :
    getMinimumAmounts asset = ⟨1/10, "gram", 600⟩
    ∧ getMaximumAmounts asset kycLevel = none := by
  constructor
  · simp [getMinimumAmounts, minimumsTable, h1, h2, h3, h4]
  · simp [getMaximumAmounts, baseMaximums, h1, h2, h3, h4]

/-- C6 witness: the amended statement instantiated at asset copper and KYC
level 3. -/
theorem C6_witness :
    ("copper" : String) ≠ "gold" ∧ ("copper" : String) ≠ "silver"
    ∧ ("copper" : String) ≠ "platinum" ∧ ("copper" : String) ≠ "stablecoin"
    ∧ (getMinimumAmounts "copper" = ⟨1/10, "gram", 600⟩
      ∧ getMaximumAmounts "copper" 3 = none) :=
  ⟨by decide, by decide, by decide, by decide,
    C6_fallbacks "copper" 3 (by decide) (by decide) (by decide) (by decide)⟩

/-- C7: the SIP fee is 50 for monthly, one fourth of 50 for weekly, one
thirtieth of 50 for daily (both exact, unrounded), and every frequency
string outside daily, weekly, monthly gets the monthly fee of 50. -/
theorem C7_sip_fee :
    calculateSIPFee "monthly" = 50
    ∧ calculateSIPFee "weekly" * 4 = 50
    ∧ calculateSIPFee "daily" * 30 = 50
    ∧ ∀ f : String, f ≠ "daily" → f ≠ "weekly" → f ≠ "monthly" →
        calculateSIPFee f = 50 := by
  refine ⟨?_, ?_, ?_, ?_⟩
  · norm_num [calculateSIPFee, show ("monthly":String) ≠ "daily" by decide,
      show ("monthly":String) ≠ "weekly" by decide]
  · norm_num [calculateSIPFee, show ("weekly":String) ≠ "daily" by decide]
  · norm_num [calculateSIPFee]
  · intro f h1 h2 h3
    simp [calculateSIPFee, h1, h2, h3]

/-- C7 witness: the default branch instantiated at the unknown frequency
quarterly. -/
theorem C7_witness :
    ("quarterly" : String) ≠ "daily" ∧ ("quarterly" : String) ≠ "weekly"
    ∧ ("quarterly" : String) ≠ "monthly" ∧ calculateSIPFee "quarterly" = 50 :=
  ⟨by decide, by decide, by decide,
    C7_sip_fee.2.2.2 "quarterly" (by decide) (by decide) (by decide)⟩

/-- C8 counterexample: at invested 3 and current value 4 the returned
profit percentage is the rounded 33.33, not the exact 100/3 the claim
requires, so the claimed unrounded contract fails. -/
theorem C8_counterexample :
    ¬ ((calculateProfitLoss 3 4).profit = 4 - 3
        ∧ (calculateProfitLoss 3 4).profitPercentage = (4 - 3) / 3 * 100) := by
  norm_num [calculateProfitLoss, round2, jround]

/-- C8 amended: profitLoss returns profit = round2 of currentValue minus
invested, profitPercent = round2 of profit over invested times 100 when
invested > 0 and 0 otherwise, and isProfit true exactly when the unrounded
profit is nonnegative; in particular the percentage at invested 0 is 0 and
a value drop from 100 to 80 is not a profit. -/
theorem C8_profit_loss :
    (∀ inv cv : ℚ,
        (calculateProfitLoss inv cv).profit = round2 (cv - inv)
        ∧ (calculateProfitLoss inv cv).profitPercentage
            = (if 0 < inv then round2 ((cv - inv) / inv * 100) else 0)
        ∧ ((calculateProfitLoss inv cv).isProfit = true ↔ 0 ≤ cv - inv))
    ∧ (calculateProfitLoss 0 100).profitPercentage = 0
    ∧ (calculateProfitLoss 100 80).isProfit = false := by
  refine ⟨fun inv cv => ⟨rfl, ?_, ?_⟩, ?_, ?_⟩
  · by_cases h : 0 < inv
    · simp [calculateProfitLoss, h]
    · simp [calculateProfitLoss, h]
      norm_num [round2, jround]
  · simp [calculateProfitLoss]
  · norm_num [calculateProfitLoss, round2, jround]
  · norm_num [calculateProfitLoss, round2, jround]

/-- C9: for every quantity > 0 and midPrice > 0 the unrounded
totalFeePercentage equals the constant 1.298, independent of trade type,
quantity and price. -/
theorem C9_percentage_constant (t : TradeType) (q p : ℚ) (hq : 0 < q) (hp : 0 < p) :
    (calculateFees t q p).totalFeePercentage = some (1298/1000) := by
  have hP : q * p ≠ 0 := mul_ne_zero (ne_of_gt hq) (ne_of_gt hp)
  cases t <;> simp only [calculateFees] <;> rw [if_neg hP] <;> norm_num <;>
    (rw [div_mul_eq_mul_div, div_eq_iff hP]; ring)

/-- C9 witness: the constant-percentage statement instantiated at a buy of
2 units at price 6000. -/
theorem C9_witness :
    (0:ℚ) < 2 ∧ (0:ℚ) < 6000
    ∧ (calculateFees TradeType.buy 2 6000).totalFeePercentage = some (1298/1000) :=
  ⟨by norm_num, by norm_num,
    C9_percentage_constant TradeType.buy 2 6000 (by norm_num) (by norm_num)⟩

/-- C10: for every asset name outside gold, silver, platinum the
redemption fee calculation does not fail: the internal price table prices
the asset at 1 per gram, so the value equals the gram quantity and the
insurance and processing fees are round2 of 0.5 and 1 percent of the
quantity. -/
theorem C10_unknown_asset (asset : String) (g : ℚ) (m : String)
    (h1 : asset ≠ "gold") (h2 : asset ≠ "silver") (h3 : asset ≠ "platinum") :
    marketPriceFor asset = 1
    ∧ (calculateRedemptionFees asset g m).insuranceFee = round2 (g * (5/1000))
    ∧ (calculateRedemptionFees asset g m).processingFee = round2 (g * (1/100)) := by
  have hm : marketPriceFor asset = 1 := by simp [marketPriceFor, h1, h2, h3]
  exact ⟨hm, by simp [calculateRedemptionFees, hm], by simp [calculateRedemptionFees, hm]⟩

/-- C10 witness: the fallback-price statement instantiated at the
stablecoin asset, 60 grams, HOME delivery. -/
theorem C10_witness :
    ("stablecoin" : String) ≠ "gold" ∧ ("stablecoin" : String) ≠ "silver"
    ∧ ("stablecoin" : String) ≠ "platinum"
    ∧ (marketPriceFor "stablecoin" = 1
      ∧ (calculateRedemptionFees "stablecoin" 60 "HOME").insuranceFee = round2 (60 * (5/1000))
      ∧ (calculateRedemptionFees "stablecoin" 60 "HOME").processingFee = round2 (60 * (1/100))) :=
  ⟨by decide, by decide, by decide,
    C10_unknown_asset "stablecoin" 60 "HOME" (by decide) (by decide) (by decide)⟩

end MultiMetal
